import Mathlib

/-!
Shallow embedding of the STRIDE analysis core of the repository
(`src/stride/categories.py`, `src/stride/knowledge_base.py`,
`src/stride/engine.py`) and proofs about it.

Python dictionaries are modelled as association lists in insertion order;
Python strings as Lean `String`; Python floats appearing in the risk-score
computation as `Rat` (the score formula is exact rational arithmetic apart
from the final rounding to one decimal, modelled by `pyRound1`).
-/

namespace Stride

/-- `ComponentCategory` enum from `categories.py`. -/
inductive ComponentCategory where
  | compute
  | database
  | storage
  | network
  | security
  | api_gateway
  | messaging
  | monitoring
  | identity
  | ml_ai
  | devops
  | serverless
  | analytics
  | groups
  | other
deriving DecidableEq, Repr

/-- The `.value` string of each enum member (`ComponentCategory(str, Enum)`). -/
def ComponentCategory.value : ComponentCategory → String
  | .compute => "compute"
  | .database => "database"
  | .storage => "storage"
  | .network => "network"
  | .security => "security"
  | .api_gateway => "api_gateway"
  | .messaging => "messaging"
  | .monitoring => "monitoring"
  | .identity => "identity"
  | .ml_ai => "ml_ai"
  | .devops => "devops"
  | .serverless => "serverless"
  | .analytics => "analytics"
  | .groups => "groups"
  | .other => "other"

/-- `ComponentCategory(value)` conversion: `some c` when `value` is a valid
enum value, `none` models the `ValueError` Python raises otherwise. -/
def ComponentCategory.ofString? (s : String) : Option ComponentCategory :=
  if s = "compute" then some .compute
  else if s = "database" then some .database
  else if s = "storage" then some .storage
  else if s = "network" then some .network
  else if s = "security" then some .security
  else if s = "api_gateway" then some .api_gateway
  else if s = "messaging" then some .messaging
  else if s = "monitoring" then some .monitoring
  else if s = "identity" then some .identity
  else if s = "ml_ai" then some .ml_ai
  else if s = "devops" then some .devops
  else if s = "serverless" then some .serverless
  else if s = "analytics" then some .analytics
  else if s = "groups" then some .groups
  else if s = "other" then some .other
  else none

/-- ASCII whitespace characters stripped by Python `str.strip()` (the inputs
of this program are ASCII component names). -/
def isPySpace (c : Char) : Bool :=
  c = ' ' || c = '\t' || c = '\n' || c = '\r' || c = '\x0b' || c = '\x0c'

/-- `not component_name or not component_name.strip()`: the string is empty or
consists only of whitespace. -/
def isBlank (s : String) : Bool :=
  s.data.all isPySpace

/-- Python `str.lower()` (ASCII case folding, which is all these names use). -/
def pyLower (s : String) : String :=
  ⟨s.data.map Char.toLower⟩

/-- `needle` occurs as a contiguous run inside `haystack` (as char lists). -/
def infixCheck (needle : List Char) : List Char → Bool
  | [] => needle.isEmpty
  | c :: rest => needle.isPrefixOf (c :: rest) || infixCheck needle rest

/-- Python `needle in haystack` on strings: substring containment. -/
def isSubstrOf (needle haystack : String) : Bool :=
  infixCheck needle.data haystack.data

/-- `_COMPONENT_MAP` entries, Compute section. -/
def MAP_COMPUTE : List (String × ComponentCategory) := [
  ("EC2", .compute),
  ("ECS", .compute),
  ("EKS", .compute),
  ("Fargate", .compute),
  ("Lambda", .compute),
  ("Lightsail", .compute),
  ("Batch", .compute),
  ("Beanstalk", .compute),
  ("VM", .compute),
  ("App Service", .compute),
  ("Container", .compute),
  ("Compute Engine", .compute),
  ("GKE", .compute),
  ("Cloud Run", .compute),
  ("SEI", .compute),
  ("SIP", .compute),
  ("Server", .compute),
  ("Vm Scaleset", .compute),
  ("Virtual Machine", .compute),
  ("Elastic Container Service", .compute)
]

/-- `_COMPONENT_MAP` entries, Database section. -/
def MAP_DATABASE : List (String × ComponentCategory) := [
  ("RDS", .database),
  ("DynamoDB", .database),
  ("Aurora", .database),
  ("ElastiCache", .database),
  ("Redis", .database),
  ("Redshift", .database),
  ("Neptune", .database),
  ("DocumentDB", .database),
  ("Cosmos DB", .database),
  ("SQL Database", .database),
  ("Cloud SQL", .database),
  ("Firestore", .database),
  ("Bigtable", .database),
  ("MySQL", .database),
  ("PostgreSQL", .database),
  ("Table", .database),
  ("DB", .database),
  ("Oracle DB", .database),
  ("Mongo DB", .database),
  ("Memcached", .database)
]

/-- `_COMPONENT_MAP` entries, Storage section. -/
def MAP_STORAGE : List (String × ComponentCategory) := [
  ("S3", .storage),
  ("EBS", .storage),
  ("EFS", .storage),
  ("Glacier", .storage),
  ("Blob Storage", .storage),
  ("Cloud Storage", .storage),
  ("FSx", .storage),
  ("Storage Gateway", .storage),
  ("File share", .storage),
  ("Snowball", .storage),
  ("Backup", .storage),
  ("DataSync", .storage)
]

/-- `_COMPONENT_MAP` entries, Network section. -/
def MAP_NETWORK : List (String × ComponentCategory) := [
  ("VPC", .network),
  ("VPC Router", .network),
  ("Internet Gateway", .network),
  ("NAT Gateway", .network),
  ("Transit Gateway", .network),
  ("Direct Connect", .network),
  ("Private Link", .network),
  ("V-net", .network),
  ("Private Subnet", .network),
  ("Public Subnet", .network),
  ("Endpoint", .network),
  ("Customer Gateway", .network),
  ("VP Gateway", .network),
  ("CloudFront", .network),
  ("Route 53", .network),
  ("Route53", .network),
  ("Cloud Map", .network),
  ("ELB", .network),
  ("ALB", .network),
  ("NLB", .network),
  ("Load Balancer", .network),
  ("CDN", .network),
  ("Distribution", .network),
  ("Edge Location", .network)
]

/-- `_COMPONENT_MAP` entries, Security section. -/
def MAP_SECURITY : List (String × ComponentCategory) := [
  ("WAF", .security),
  ("Shield", .security),
  ("GuardDuty", .security),
  ("KMS", .security),
  ("Key Management Service", .security),
  ("CloudHSM", .security),
  ("Secrets Manager", .security),
  ("Security Hub", .security),
  ("Certificate", .security),
  ("Certificate Manager", .security),
  ("Firewall", .security),
  ("Network Firewall", .security),
  ("Firewall Manager", .security),
  ("Inspector Agent", .security),
  ("Macie", .security),
  ("Detective", .security),
  ("Key vault", .security),
  ("Security Group", .security)
]

/-- `_COMPONENT_MAP` entries, Api Gateway section. -/
def MAP_API_GATEWAY : List (String × ComponentCategory) := [
  ("API Gateway", .api_gateway),
  ("API-Gateway", .api_gateway),
  ("App gateway", .api_gateway),
  ("AppSync", .api_gateway),
  ("Appsync", .api_gateway),
  ("Apigee", .api_gateway),
  ("API Management", .api_gateway)
]

/-- `_COMPONENT_MAP` entries, Messaging section. -/
def MAP_MESSAGING : List (String × ComponentCategory) := [
  ("SQS", .messaging),
  ("SNS", .messaging),
  ("SES", .messaging),
  ("EventBridge", .messaging),
  ("Event Bus", .messaging),
  ("Kinesis", .messaging),
  ("Kinesis Data Streams", .messaging),
  ("Service Bus", .messaging),
  ("Pub/Sub", .messaging),
  ("MQ", .messaging)
]

/-- `_COMPONENT_MAP` entries, Monitoring section. -/
def MAP_MONITORING : List (String × ComponentCategory) := [
  ("CloudWatch", .monitoring),
  ("Cloud Watch", .monitoring),
  ("CloudWatch Alarm", .monitoring),
  ("CloudTrail", .monitoring),
  ("Cloud Trail", .monitoring),
  ("X-Ray", .monitoring),
  ("Cloud Monitoring", .monitoring),
  ("Azure monitor", .monitoring),
  ("Grafana", .monitoring),
  ("Prometheus", .monitoring),
  ("Flow logs", .monitoring),
  ("Config", .monitoring),
  ("Trusted Advisor", .monitoring)
]

/-- `_COMPONENT_MAP` entries, Identity section. -/
def MAP_IDENTITY : List (String × ComponentCategory) := [
  ("IAM", .identity),
  ("IAM Role", .identity),
  ("Cognito", .identity),
  ("AAD", .identity),
  ("Active Directory Service", .identity),
  ("Sign-On", .identity),
  ("Users", .identity),
  ("Client", .other)
]

/-- `_COMPONENT_MAP` entries, Ml Ai section. -/
def MAP_ML_AI : List (String × ComponentCategory) := [
  ("Sagemaker", .ml_ai),
  ("Rekognition", .ml_ai),
  ("Comprehend", .ml_ai),
  ("Lex", .ml_ai),
  ("Textract", .ml_ai),
  ("Transcribe", .ml_ai),
  ("Translate", .ml_ai),
  ("Vertex AI", .ml_ai),
  ("Machine Learning", .ml_ai),
  ("Notebook", .ml_ai)
]

/-- `_COMPONENT_MAP` entries, Devops section. -/
def MAP_DEVOPS : List (String × ComponentCategory) := [
  ("CodePipeline", .devops),
  ("CodeBuild", .devops),
  ("CodeCommit", .devops),
  ("CodeDeploy", .devops),
  ("Jenkins", .devops),
  ("Github", .devops),
  ("Git", .devops),
  ("Docker Image", .devops),
  ("Image Builder", .devops),
  ("CloudFormation Stack", .devops),
  ("Terraform", .devops),
  ("Deploy Stage", .devops),
  ("Build Environment", .devops)
]

/-- `_COMPONENT_MAP` entries, Serverless section. -/
def MAP_SERVERLESS : List (String × ComponentCategory) := [
  ("Amplify", .serverless),
  ("AppFlow", .serverless),
  ("Step Functions", .serverless),
  ("Step Function", .serverless)
]

/-- `_COMPONENT_MAP` entries, Analytics section. -/
def MAP_ANALYTICS : List (String × ComponentCategory) := [
  ("Athena", .analytics),
  ("Glue", .analytics),
  ("BigQuery", .analytics),
  ("EMR", .analytics)
]

/-- `_COMPONENT_MAP` entries, Groups section. -/
def MAP_GROUPS : List (String × ComponentCategory) := [
  ("groups", .groups),
  ("Availability Zone", .groups),
  ("Region", .groups)
]

/-- `_COMPONENT_MAP` from `categories.py`: the seeded name→category dict,
as an association list in insertion order (sections concatenated in source
order). -/
def COMPONENT_MAP : List (String × ComponentCategory) :=
  MAP_COMPUTE ++ MAP_DATABASE ++ MAP_STORAGE ++ MAP_NETWORK ++ MAP_SECURITY ++
  MAP_API_GATEWAY ++ MAP_MESSAGING ++ MAP_MONITORING ++ MAP_IDENTITY ++
  MAP_ML_AI ++ MAP_DEVOPS ++ MAP_SERVERLESS ++ MAP_ANALYTICS ++ MAP_GROUPS

/-- Python `key in dict` / `dict[key]` on an insertion-ordered dict with
distinct keys: first association with exactly that key. -/
def lookupAssoc (m : List (String × ComponentCategory)) (k : String) :
    Option ComponentCategory :=
  (m.find? (fun p => p.1 == k)).map Prod.snd

/-- `CategoryClassifier.classify` over an arbitrary component map
(`self._component_map`). -/
def classifyWith (m : List (String × ComponentCategory)) (component_name : String) :
    ComponentCategory :=
  if isBlank component_name then .other
  else
    match lookupAssoc m component_name with
    | some c => c
    | none =>
      let name_lower := pyLower component_name
      match m.find? (fun p =>
          isSubstrOf (pyLower p.1) name_lower || isSubstrOf name_lower (pyLower p.1)) with
      | some p => p.2
      | none => .other

/-- `classify` of the default classifier (`CategoryClassifier()`), the one the
engine builds when no classifier is injected. -/
def classify (component_name : String) : ComponentCategory :=
  classifyWith COMPONENT_MAP component_name

/-- Python `dict[k] = v`: overwrite in place when the key exists (keeping its
position), append at the end otherwise. -/
def dictInsert (m : List (String × ComponentCategory)) (k : String)
    (v : ComponentCategory) : List (String × ComponentCategory) :=
  if m.any (fun p => p.1 == k) then
    m.map (fun p => if p.1 == k then (k, v) else p)
  else
    m ++ [(k, v)]

/-- `CategoryClassifier.__init__`: start from a copy of the seeded map, then
write each custom mapping entry in iteration order through
`ComponentCategory(value)`; `none` models the `ValueError` raised on an
invalid category value. -/
def mkClassifier (custom_mappings : List (String × String)) :
    Option (List (String × ComponentCategory)) :=
  custom_mappings.foldlM
    (fun m p => (ComponentCategory.ofString? p.2).map (fun c => dictInsert m p.1 c))
    COMPONENT_MAP


/-- `ThreatRisk` dataclass from `knowledge_base.py`. -/
structure ThreatRisk where
  threat_type : String
  threat_label : String
  detail : String
  mitigation : String
  severity : String
deriving DecidableEq, Repr

/-- `COMPUTE_THREATS` from `knowledge_base.py`. -/
def COMPUTE_THREATS : List ThreatRisk := [
  { threat_type := "Spoofing",
    threat_label := "S - Falsificação de Identidade",
    detail := "Instâncias podem ser clonadas ou falsificadas por atacantes.",
    mitigation := "Habilitar IMDSv2, usar security groups restritos e IAM roles.",
    severity := "HIGH" },
  { threat_type := "Tampering",
    threat_label := "T - Adulteração",
    detail := "Modificação não autorizada de configurações ou dados da instância.",
    mitigation := "Habilitar CloudTrail, usar AMIs verificadas e integrity monitoring.",
    severity := "HIGH" },
  { threat_type := "Elevation of Privilege",
    threat_label := "E - Elevação de Privilégio",
    detail := "Exploração de vulnerabilidades para ganhar privilégios root.",
    mitigation := "Aplicar patches regularmente, usar least privilege em IAM roles.",
    severity := "CRITICAL" }
]

/-- `DATABASE_THREATS` from `knowledge_base.py`. -/
def DATABASE_THREATS : List ThreatRisk := [
  { threat_type := "Information Disclosure",
    threat_label := "I - Vazamento de Informações",
    detail := "Dados sensíveis podem ser expostos via queries ou backups não criptografados.",
    mitigation := "Habilitar encryption at-rest e in-transit, usar VPC endpoints.",
    severity := "CRITICAL" },
  { threat_type := "Tampering",
    threat_label := "T - Adulteração",
    detail := "Modificação não autorizada de registros do banco.",
    mitigation := "Habilitar audit logging, usar IAM authentication e parameter groups seguros.",
    severity := "HIGH" },
  { threat_type := "Denial of Service",
    threat_label := "D - Negação de Serviço",
    detail := "Consultas pesadas ou connection flooding podem causar indisponibilidade.",
    mitigation := "Configurar connection pooling, query timeout e read replicas.",
    severity := "MEDIUM" }
]

/-- `STORAGE_THREATS` from `knowledge_base.py`. -/
def STORAGE_THREATS : List ThreatRisk := [
  { threat_type := "Information Disclosure",
    threat_label := "I - Vazamento de Informações",
    detail := "Buckets/blobs públicos podem expor dados sensíveis.",
    mitigation := "Bloquear acesso público, habilitar encryption e bucket policies restritas.",
    severity := "CRITICAL" },
  { threat_type := "Tampering",
    threat_label := "T - Adulteração",
    detail := "Objetos podem ser modificados ou deletados sem autorização.",
    mitigation := "Habilitar versioning, MFA delete e Object Lock.",
    severity := "HIGH" },
  { threat_type := "Repudiation",
    threat_label := "R - Repúdio",
    detail := "Ações em objetos sem trilha de auditoria.",
    mitigation := "Habilitar S3 access logging e CloudTrail data events.",
    severity := "MEDIUM" }
]

/-- `NETWORK_THREATS` from `knowledge_base.py`. -/
def NETWORK_THREATS : List ThreatRisk := [
  { threat_type := "Spoofing",
    threat_label := "S - Falsificação de Identidade",
    detail := "Tráfego de rede pode ser spoofed para acessar recursos internos.",
    mitigation := "Usar NACLs, security groups e VPN/Direct Connect para acesso.",
    severity := "HIGH" },
  { threat_type := "Information Disclosure",
    threat_label := "I - Vazamento de Informações",
    detail := "Tráfego não criptografado pode ser interceptado.",
    mitigation := "Usar TLS em trânsito, VPC Flow Logs e endpoints privados.",
    severity := "HIGH" },
  { threat_type := "Denial of Service",
    threat_label := "D - Negação de Serviço",
    detail := "Ataques DDoS podem tornar o serviço indisponível.",
    mitigation := "Usar AWS Shield, WAF e CloudFront para mitigação de DDoS.",
    severity := "HIGH" }
]

/-- `SECURITY_THREATS` from `knowledge_base.py`. -/
def SECURITY_THREATS : List ThreatRisk := [
  { threat_type := "Elevation of Privilege",
    threat_label := "E - Elevação de Privilégio",
    detail := "Políticas IAM permissivas podem permitir escalonamento de privilégios.",
    mitigation := "Aplicar least privilege, usar IAM Access Analyzer e SCPs.",
    severity := "CRITICAL" },
  { threat_type := "Spoofing",
    threat_label := "S - Falsificação de Identidade",
    detail := "Credenciais comprometidas podem ser usadas para impersonação.",
    mitigation := "Habilitar MFA, rotação de chaves e monitoramento de acessos.",
    severity := "CRITICAL" },
  { threat_type := "Repudiation",
    threat_label := "R - Repúdio",
    detail := "Ações administrativas sem logging adequado.",
    mitigation := "Habilitar CloudTrail em todas as regiões com log file validation.",
    severity := "HIGH" }
]

/-- `API_GATEWAY_THREATS` from `knowledge_base.py`. -/
def API_GATEWAY_THREATS : List ThreatRisk := [
  { threat_type := "Spoofing",
    threat_label := "S - Falsificação de Identidade",
    detail := "APIs sem autenticação podem ser exploradas por atacantes.",
    mitigation := "Implementar API keys, OAuth2/JWT e throttling.",
    severity := "HIGH" },
  { threat_type := "Denial of Service",
    threat_label := "D - Negação de Serviço",
    detail := "Requisições em massa podem sobrecarregar o backend.",
    mitigation := "Configurar rate limiting, caching e request validation.",
    severity := "MEDIUM" },
  { threat_type := "Information Disclosure",
    threat_label := "I - Vazamento de Informações",
    detail := "Respostas de erro podem expor detalhes da infraestrutura.",
    mitigation := "Customizar error responses e habilitar request/response logging.",
    severity := "MEDIUM" }
]

/-- `MESSAGING_THREATS` from `knowledge_base.py`. -/
def MESSAGING_THREATS : List ThreatRisk := [
  { threat_type := "Tampering",
    threat_label := "T - Adulteração",
    detail := "Mensagens na fila podem ser modificadas em trânsito.",
    mitigation := "Habilitar encryption in-transit e at-rest, usar VPC endpoints.",
    severity := "HIGH" },
  { threat_type := "Information Disclosure",
    threat_label := "I - Vazamento de Informações",
    detail := "Mensagens podem conter dados sensíveis em plaintext.",
    mitigation := "Criptografar payloads sensíveis e usar client-side encryption.",
    severity := "HIGH" },
  { threat_type := "Denial of Service",
    threat_label := "D - Negação de Serviço",
    detail := "Message flooding pode saturar os consumidores.",
    mitigation := "Configurar dead-letter queues e limites de concurrency.",
    severity := "MEDIUM" }
]

/-- `MONITORING_THREATS` from `knowledge_base.py`. -/
def MONITORING_THREATS : List ThreatRisk := [
  { threat_type := "Tampering",
    threat_label := "T - Adulteração",
    detail := "Logs podem ser modificados ou deletados para encobrir ataques.",
    mitigation := "Enviar logs para conta separada, habilitar log file integrity validation.",
    severity := "HIGH" },
  { threat_type := "Information Disclosure",
    threat_label := "I - Vazamento de Informações",
    detail := "Logs podem conter dados sensíveis (tokens, PII, etc).",
    mitigation := "Implementar log sanitization e acesso restrito a log groups.",
    severity := "MEDIUM" }
]

/-- `IDENTITY_THREATS` from `knowledge_base.py`. -/
def IDENTITY_THREATS : List ThreatRisk := [
  { threat_type := "Spoofing",
    threat_label := "S - Falsificação de Identidade",
    detail := "Credenciais de usuários podem ser comprometidas via phishing.",
    mitigation := "Habilitar MFA, password policies fortes e anomaly detection.",
    severity := "CRITICAL" },
  { threat_type := "Elevation of Privilege",
    threat_label := "E - Elevação de Privilégio",
    detail := "Usuários podem tentar escalar privilégios via federation flaws.",
    mitigation := "Revisar trust policies, usar conditional access e RBAC.",
    severity := "HIGH" }
]

/-- `ML_AI_THREATS` from `knowledge_base.py`. -/
def ML_AI_THREATS : List ThreatRisk := [
  { threat_type := "Tampering",
    threat_label := "T - Adulteração",
    detail := "Dataset ou modelo pode ser envenenado (data/model poisoning).",
    mitigation := "Validar integridade do dataset, usar model versioning e lineage tracking.",
    severity := "HIGH" },
  { threat_type := "Information Disclosure",
    threat_label := "I - Vazamento de Informações",
    detail := "Model inversion attacks podem extrair dados de treinamento.",
    mitigation := "Aplicar differential privacy e limitar acesso aos endpoints de inferência.",
    severity := "HIGH" },
  { threat_type := "Denial of Service",
    threat_label := "D - Negação de Serviço",
    detail := "Inferências custosas podem esgotar recursos e gerar custos.",
    mitigation := "Configurar auto-scaling limits, request throttling e budget alerts.",
    severity := "MEDIUM" }
]

/-- `SERVERLESS_THREATS` from `knowledge_base.py`. -/
def SERVERLESS_THREATS : List ThreatRisk := [
  { threat_type := "Elevation of Privilege",
    threat_label := "E - Elevação de Privilégio",
    detail := "Funções Lambda com IAM Role permissiva.",
    mitigation := "Aplicar least privilege por função. Usar Resource-based policies.",
    severity := "HIGH" },
  { threat_type := "Denial of Service",
    threat_label := "D - Negação de Serviço",
    detail := "Execução recursiva ou loop infinito pode esgotar concurrency.",
    mitigation := "Configurar reserved concurrency. Definir timeout adequado.",
    severity := "MEDIUM" },
  { threat_type := "Information Disclosure",
    threat_label := "I - Vazamento de Informações",
    detail := "Variáveis de ambiente podem expor secrets.",
    mitigation := "Usar Secrets Manager ou Parameter Store para dados sensíveis.",
    severity := "HIGH" }
]

/-- `DEVOPS_THREATS` from `knowledge_base.py`. -/
def DEVOPS_THREATS : List ThreatRisk := [
  { threat_type := "Elevation of Privilege",
    threat_label := "E - Elevação de Privilégio",
    detail := "Pipelines CI/CD geralmente têm permissões elevadas para deploy.",
    mitigation := "Usar roles específicas por stage. Requerer aprovação para produção.",
    severity := "CRITICAL" },
  { threat_type := "Tampering",
    threat_label := "T - Adulteração",
    detail := "Código malicioso pode ser injetado no pipeline.",
    mitigation := "Habilitar branch protection. Requerer code review. Assinar commits.",
    severity := "HIGH" },
  { threat_type := "Information Disclosure",
    threat_label := "I - Vazamento de Informações",
    detail := "Secrets podem ser expostos em logs de build.",
    mitigation := "Usar Secrets Manager. Nunca hardcode secrets. Mascarar em logs.",
    severity := "HIGH" }
]

/-- `ANALYTICS_THREATS` from `knowledge_base.py`. -/
def ANALYTICS_THREATS : List ThreatRisk := [
  { threat_type := "Information Disclosure",
    threat_label := "I - Vazamento de Informações",
    detail := "Queries em data lakes podem expor dados sensíveis entre equipes.",
    mitigation := "Implementar column-level security e row-level filtering.",
    severity := "HIGH" },
  { threat_type := "Tampering",
    threat_label := "T - Adulteração",
    detail := "Resultados de análises podem ser manipulados.",
    mitigation := "Habilitar audit logging e versionamento de datasets.",
    severity := "MEDIUM" }
]

/-- `GROUPS_THREATS` from `knowledge_base.py`. -/
def GROUPS_THREATS : List ThreatRisk := [
  { threat_type := "Spoofing",
    threat_label := "S - Falsificação de Identidade",
    detail := "Agrupamentos de recursos podem mascarar acessos não autorizados.",
    mitigation := "Definir boundaries claros com resource policies e tags obrigatórias.",
    severity := "MEDIUM" }
]

/-- `OTHER_THREATS` from `knowledge_base.py`. -/
def OTHER_THREATS : List ThreatRisk := [
  { threat_type := "Spoofing",
    threat_label := "S - Falsificação de Identidade",
    detail := "Componente não categorizado requer revisão manual de segurança.",
    mitigation := "Verificar autenticação e autorização manualmente.",
    severity := "MEDIUM" }
]

/-- `ComponentAnalysis` dataclass from `knowledge_base.py`. -/
structure ComponentAnalysis where
  component : String
  category : String
  element_type : String
  stride_summary : String
  description : String
  risks : List ThreatRisk
deriving DecidableEq, Repr

/-- `ComponentAnalysis.risk_count`. -/
def ComponentAnalysis.risk_count (a : ComponentAnalysis) : Nat :=
  a.risks.length

/-- The `severity_order` dict of `ComponentAnalysis.max_severity`, as the
total function `severity_order.get(s, 0)`. -/
def severity_order (s : String) : Nat :=
  if s == "CRITICAL" then 4
  else if s == "HIGH" then 3
  else if s == "MEDIUM" then 2
  else if s == "LOW" then 1
  else 0

/-- Python `max(x :: xs, key=f)`: the first element attaining the maximal
key (a later element replaces the current best only when its key is
strictly greater). -/
def pyMaxBy (f : ThreatRisk → Nat) (x : ThreatRisk) (xs : List ThreatRisk) :
    ThreatRisk :=
  xs.foldl (fun best r => if f r > f best then r else best) x

/-- `ComponentAnalysis.max_severity`. -/
def ComponentAnalysis.max_severity (a : ComponentAnalysis) : String :=
  match a.risks with
  | [] => "LOW"
  | x :: xs => (pyMaxBy (fun r => severity_order r.severity) x xs).severity

/-- The per-risk dict shape produced by `ComponentAnalysis.to_dict`. -/
structure RiskDict where
  type : String
  threat : String
  detail : String
  mitigation : String
  severity : String
deriving DecidableEq, Repr

/-- The dict shape produced by `ComponentAnalysis.to_dict`. -/
structure AnalysisDict where
  component : String
  category : String
  element_type : String
  stride_summary : String
  description : String
  risks : List RiskDict
deriving DecidableEq, Repr

/-- `ComponentAnalysis.to_dict`. -/
def ComponentAnalysis.to_dict (a : ComponentAnalysis) : AnalysisDict :=
  { component := a.component
    category := a.category
    element_type := a.element_type
    stride_summary := a.stride_summary
    description := a.description
    risks := a.risks.map (fun r =>
      { type := r.threat_type
        threat := r.threat_label
        detail := r.detail
        mitigation := r.mitigation
        severity := r.severity }) }

/-- `StrideEngine._CATEGORY_PROFILES` from `engine.py`: category →
`(element_type, stride_summary, description, threats)`, in insertion
order. -/
def CATEGORY_PROFILES :
    List (ComponentCategory × (String × String × String × List ThreatRisk)) := [
  (.compute,
    ("Process", "S, T, E",
     "Recursos de computação (VMs, containers, instâncias)", COMPUTE_THREATS)),
  (.database,
    ("Data Store", "T, I, D",
     "Bancos de dados relacionais e NoSQL", DATABASE_THREATS)),
  (.storage,
    ("Data Store", "I, T, R",
     "Armazenamento de objetos e arquivos", STORAGE_THREATS)),
  (.network,
    ("Data Flow", "S, I, D",
     "Componentes de rede e conectividade", NETWORK_THREATS)),
  (.security,
    ("Trust Boundary", "S, E, R",
     "Serviços de segurança e proteção", SECURITY_THREATS)),
  (.api_gateway,
    ("Process", "S, D, I",
     "API Gateways e serviços de integração", API_GATEWAY_THREATS)),
  (.messaging,
    ("Data Flow", "T, I, D",
     "Filas de mensagens e streaming de eventos", MESSAGING_THREATS)),
  (.monitoring,
    ("Data Store", "T, I",
     "Serviços de monitoramento e logging", MONITORING_THREATS)),
  (.identity,
    ("External Entity", "S, E",
     "Provedores de identidade e autenticação", IDENTITY_THREATS)),
  (.ml_ai,
    ("Process", "T, I, D",
     "Serviços de Machine Learning e IA", ML_AI_THREATS)),
  (.serverless,
    ("Process", "I, D, E",
     "Funções e serviços serverless", SERVERLESS_THREATS)),
  (.devops,
    ("Process", "T, I, E",
     "Ferramentas de CI/CD e automação", DEVOPS_THREATS)),
  (.analytics,
    ("Data Store", "I, T",
     "Serviços de analytics e data lake", ANALYTICS_THREATS)),
  (.groups,
    ("Trust Boundary", "S",
     "Agrupamentos de recursos e boundaries", GROUPS_THREATS)),
  (.other,
    ("External Entity", "S",
     "Componente não categorizado", OTHER_THREATS))
]

/-- `self._CATEGORY_PROFILES.get(category)`. -/
def profileLookup (c : ComponentCategory) :
    Option (String × String × String × List ThreatRisk) :=
  (CATEGORY_PROFILES.find? (fun p => p.1 == c)).map Prod.snd

/-- `StrideEngine._build_generic_analysis`. -/
def build_generic_analysis (component : String) (category : ComponentCategory) :
    ComponentAnalysis :=
  { component := component
    category := category.value
    element_type := "External Entity"
    stride_summary := "S"
    description := "Componente '" ++ component ++ "' sem análise específica"
    risks := [
      { threat_type := "Spoofing"
        threat_label := "S - Falsificação de Identidade"
        detail := "Componente não categorizado requer revisão manual."
        mitigation := "Verificar autenticação e autorização manualmente."
        severity := "MEDIUM" }] }

/-- `StrideEngine.analyze`, parametrised by the injected classifier map `m`
(`self._classifier._component_map`). -/
def analyzeWith (m : List (String × ComponentCategory)) (component_name : String) :
    Option ComponentAnalysis :=
  if isBlank component_name then none
  else
    let category := classifyWith m component_name
    match profileLookup category with
    | none => some (build_generic_analysis component_name category)
    | some (element_type, stride_summary, description, threats) =>
      some { component := component_name
             category := category.value
             element_type := element_type
             stride_summary := stride_summary
             description := description
             risks := threats }

/-- `analyze` of the default engine (`StrideEngine()` with the default
classifier). -/
def analyze (component_name : String) : Option ComponentAnalysis :=
  analyzeWith COMPONENT_MAP component_name

/-- The `severity_weights` dict of `_calculate_risk_score`, as the total
function `severity_weights.get(s, 0)`. -/
def severity_weights_get (s : String) : Nat :=
  if s == "CRITICAL" then 10
  else if s == "HIGH" then 7
  else if s == "MEDIUM" then 4
  else if s == "LOW" then 1
  else 0

/-- Round to the nearest integer with Python `round`'s tie rule
(ties to the even integer). -/
def roundHalfEven (q : Rat) : Int :=
  if q - ⌊q⌋ = (1 : Rat) / 2 then (if 2 ∣ ⌊q⌋ then ⌊q⌋ else ⌊q⌋ + 1)
  else round q

/-- Python `round(x, 1)`: round to one decimal place, ties to even. -/
def pyRound1 (q : Rat) : Rat :=
  (roundHalfEven (q * 10) : Rat) / 10

/-- `StrideEngine._calculate_risk_score` (float arithmetic modelled
exactly over `Rat`). -/
def calculate_risk_score (analyses : List ComponentAnalysis) : Rat :=
  if analyses.isEmpty then 0
  else
    let total : Nat :=
      (analyses.map (fun analysis =>
        (analysis.risks.map (fun risk => severity_weights_get risk.severity)).sum)).sum
    let max_possible : Nat := analyses.length * 3 * severity_weights_get "CRITICAL"
    if max_possible ≠ 0 then
      min (pyRound1 (((total : Rat) / (max_possible : Rat)) * 100)) 100
    else 0

/-- `StrideEngine._get_risk_level`. -/
def get_risk_level (score : Rat) : String :=
  if score ≥ 75 then "CRITICAL"
  else if score ≥ 50 then "HIGH"
  else if score ≥ 25 then "MEDIUM"
  else "LOW"

/-- The dict returned by `StrideEngine.analyze_architecture`. -/
structure ArchitectureReport where
  total_components : Nat
  analyzed : Nat
  failed : List String
  risk_score : Rat
  risk_level : String
  components : List AnalysisDict
deriving DecidableEq, Repr

/-- The accumulation loop of `analyze_architecture`: successful analyses
and failed names, each in input order. -/
def splitAnalyses (m : List (String × ComponentCategory)) :
    List String → List ComponentAnalysis × List String
  | [] => ([], [])
  | comp :: rest =>
    match analyzeWith m comp with
    | some result =>
      let (analyses, failed) := splitAnalyses m rest
      (result :: analyses, failed)
    | none =>
      let (analyses, failed) := splitAnalyses m rest
      (analyses, comp :: failed)

/-- `StrideEngine.analyze_architecture`, parametrised by the classifier
map `m`. -/
def analyze_architecture_with (m : List (String × ComponentCategory))
    (components : List String) : ArchitectureReport :=
  let (analyses, failed) := splitAnalyses m components
  let risk_score := calculate_risk_score analyses
  { total_components := components.length
    analyzed := analyses.length
    failed := failed
    risk_score := risk_score
    risk_level := get_risk_level risk_score
    components := analyses.map ComponentAnalysis.to_dict }

/-- `analyze_architecture` of the default engine. -/
def analyze_architecture (components : List String) : ArchitectureReport :=
  analyze_architecture_with COMPONENT_MAP components

/-!
Specification-side definitions: these follow the wording of the
specification, to be compared with the definitions above, which follow the
source. -/

/-- The classification algorithm as the specification words it: blank input
yields `other`; otherwise an exact case-sensitive table lookup; otherwise the
table is scanned in insertion order and the first entry whose lowercased key
is a substring of the lowercased input, or whose lowercased input is a
substring of the lowercased key, wins; otherwise `other`. -/
def classifySpecAlg (table : List (String × ComponentCategory)) (s : String) :
    ComponentCategory :=
  if isBlank s then ComponentCategory.other
  else
    match (table.find? (fun p => p.1 == s)).map Prod.snd with
    | some c => c
    | none =>
      match table.filter (fun p =>
          isSubstrOf (pyLower p.1) (pyLower s) ||
          isSubstrOf (pyLower s) (pyLower p.1)) with
      | [] => ComponentCategory.other
      | e :: _ => e.2

/-- The severity weight table as the specification words it. -/
def weightSpec (severity : String) : Nat :=
  if severity == "CRITICAL" then 10
  else if severity == "HIGH" then 7
  else if severity == "MEDIUM" then 4
  else if severity == "LOW" then 1
  else 0

/-- The risk-score formula as the specification words it: `total` summed
over all (analysis, risk) pairs, normalised by `len(analyses) * 3 * 10`,
rounded to one decimal and capped at 100; `0.0` for no analyses. -/
def riskScoreSpec (analyses : List ComponentAnalysis) : Rat :=
  let total := ((analyses.map (fun a => a.risks)).flatten.map
    (fun r => weightSpec r.severity)).sum
  let max_possible := analyses.length * 3 * 10
  if 0 < max_possible then
    min (pyRound1 ((total : Rat) / (max_possible : Rat) * 100)) 100
  else 0

/-- `max_severity` as the specification words it: the highest-ranked severity
present among the risks, ranked CRITICAL > HIGH > MEDIUM > LOW, and `"LOW"`
for an empty risk list. -/
def maxSeveritySpec (risks : List ThreatRisk) : String :=
  if risks.any (fun r => r.severity == "CRITICAL") then "CRITICAL"
  else if risks.any (fun r => r.severity == "HIGH") then "HIGH"
  else if risks.any (fun r => r.severity == "MEDIUM") then "MEDIUM"
  else "LOW"

/-- `severity` is one of the four defined levels. -/
def validSeverity (s : String) : Bool :=
  s == "CRITICAL" || s == "HIGH" || s == "MEDIUM" || s == "LOW"

/-- The fifteen threat lists that make up the knowledge base. -/
def KNOWLEDGE_BASE : List (List ThreatRisk) := [
  COMPUTE_THREATS, DATABASE_THREATS, STORAGE_THREATS, NETWORK_THREATS,
  SECURITY_THREATS, API_GATEWAY_THREATS, MESSAGING_THREATS,
  MONITORING_THREATS, IDENTITY_THREATS, ML_AI_THREATS, SERVERLESS_THREATS,
  DEVOPS_THREATS, ANALYTICS_THREATS, GROUPS_THREATS, OTHER_THREATS]

/-! Helper lemmas. -/

theorem find?_eq_head?_filter {α : Type} (p : α → Bool) :
    ∀ l : List α, l.find? p = (l.filter p).head?
  | [] => rfl
  | x :: xs => by
    rw [List.filter_cons]
    cases h : p x
    · rw [List.find?_cons_of_neg _ (by simp [h]), if_neg (by simp [h]),
        find?_eq_head?_filter p xs]
    · rw [List.find?_cons_of_pos _ h, if_pos (by simp [h])]
      rfl

/-! Claim theorems. -/

/-- C1: for every input string, `classify` follows the ordered algorithm
with first match winning — blank input yields `other`; otherwise an exact
case-sensitive table lookup; otherwise the first entry in insertion order
matching by case-insensitive substring containment in either direction;
otherwise `other` — and `classify "EC2" = compute`,
`classify "Amazon S3 Bucket" = storage`, `classify "" = other`,
`classify "UnknownWidget123" = other`. -/
theorem classify_matches_spec_algorithm :
    (∀ s : String, classify s = classifySpecAlg COMPONENT_MAP s) ∧
    classify "EC2" = ComponentCategory.compute ∧
    classify "Amazon S3 Bucket" = ComponentCategory.storage ∧
    classify "" = ComponentCategory.other ∧
    classify "UnknownWidget123" = ComponentCategory.other := by
  refine ⟨fun s => ?_, by decide, by decide, by decide, by decide⟩
  unfold classify classifyWith classifySpecAlg lookupAssoc
  cases hb : isBlank s
  · simp only [Bool.false_eq_true, if_false]
    cases he : (COMPONENT_MAP.find? (fun p => p.1 == s)).map Prod.snd
    · simp only []
      rw [find?_eq_head?_filter]
      cases hf : COMPONENT_MAP.filter (fun p =>
          isSubstrOf (pyLower p.1) (pyLower s) ||
          isSubstrOf (pyLower s) (pyLower p.1))
      · simp [hf]
      · simp [hf]
    · simp
  · simp

/-- C2: for every list of component analyses, the risk score equals the
specification's formula — severity weights CRITICAL=10, HIGH=7, MEDIUM=4,
LOW=1, 0 otherwise, summed over all (analysis, risk) pairs, normalised by
`len(analyses) * 3 * 10`, rounded to one decimal, capped at 100, and 0 for
an empty list. -/
theorem risk_score_matches_spec_formula :
    ∀ analyses : List ComponentAnalysis,
      calculate_risk_score analyses = riskScoreSpec analyses := by
  intro analyses
  unfold calculate_risk_score riskScoreSpec
  cases analyses with
  | nil => simp
  | cons a rest =>
    have hw : weightSpec = severity_weights_get := rfl
    simp only [List.isEmpty_cons, Bool.false_eq_true, if_false, hw,
      List.map_flatten, List.sum_flatten, List.map_map]
    have h30 : severity_weights_get "CRITICAL" = 10 := rfl
    rw [h30]
    have hlen : (a :: rest).length = rest.length + 1 := rfl
    rw [if_pos (show (a :: rest).length * 3 * 10 ≠ 0 by rw [hlen]; omega),
      if_pos (show 0 < (a :: rest).length * 3 * 10 by rw [hlen]; omega)]
    rfl

/-- C3: for every 0–100 score, the risk level is CRITICAL iff
`score ≥ 75`, HIGH iff `50 ≤ score < 75`, MEDIUM iff `25 ≤ score < 50` and
LOW iff `score < 25`; in particular 75.0 → CRITICAL, 74.9 → HIGH,
25.0 → MEDIUM, 24.9 → LOW. -/
theorem risk_level_thresholds :
    (∀ score : Rat,
      (get_risk_level score = "CRITICAL" ↔ 75 ≤ score) ∧
      (get_risk_level score = "HIGH" ↔ 50 ≤ score ∧ score < 75) ∧
      (get_risk_level score = "MEDIUM" ↔ 25 ≤ score ∧ score < 50) ∧
      (get_risk_level score = "LOW" ↔ score < 25)) ∧
    get_risk_level 75 = "CRITICAL" ∧
    get_risk_level (749 / 10) = "HIGH" ∧
    get_risk_level 25 = "MEDIUM" ∧
    get_risk_level (249 / 10) = "LOW" := by
  refine ⟨fun score => ?_, ?_, ?_, ?_, ?_⟩
  · unfold get_risk_level
    split_ifs with h1 h2 h3 <;>
      refine ⟨?_, ?_, ?_, ?_⟩ <;> simp_all <;> intros <;> linarith
  · unfold get_risk_level; norm_num
  · unfold get_risk_level; norm_num
  · unfold get_risk_level; norm_num
  · unfold get_risk_level; norm_num

theorem splitAnalyses_eq (m : List (String × ComponentCategory)) :
    ∀ names : List String,
      splitAnalyses m names =
        (names.filterMap (analyzeWith m),
         names.filter (fun n => (analyzeWith m n).isNone))
  | [] => rfl
  | comp :: rest => by
    unfold splitAnalyses
    rw [splitAnalyses_eq m rest]
    cases h : analyzeWith m comp <;>
      simp [List.filterMap_cons, List.filter_cons, h]

/-- C4: `analyze_architecture` analyzes each name in input order; successes
populate `components` in order, failures populate `failed` in order;
`total_components` is the input length, `analyzed` the number of successes;
the risk score comes from the successful analyses only and the level from
the score. `analyze_architecture []` is exactly the empty report with score
0.0 and level LOW. -/
theorem analyze_architecture_report_shape :
    (∀ names : List String,
      (analyze_architecture names).components =
        (names.filterMap analyze).map ComponentAnalysis.to_dict ∧
      (analyze_architecture names).failed =
        names.filter (fun n => (analyze n).isNone) ∧
      (analyze_architecture names).total_components = names.length ∧
      (analyze_architecture names).analyzed = (names.filterMap analyze).length ∧
      (analyze_architecture names).risk_score =
        calculate_risk_score (names.filterMap analyze) ∧
      (analyze_architecture names).risk_level =
        get_risk_level (calculate_risk_score (names.filterMap analyze))) ∧
    analyze_architecture [] =
      { total_components := 0, analyzed := 0, failed := [], risk_score := 0,
        risk_level := "LOW", components := [] } := by
  constructor
  · intro names
    unfold analyze_architecture analyze_architecture_with
    rw [splitAnalyses_eq COMPONENT_MAP names,
      show analyze = analyzeWith COMPONENT_MAP from rfl]
    simp
  · unfold analyze_architecture analyze_architecture_with splitAnalyses
    have h0 : calculate_risk_score [] = 0 := rfl
    simp only [h0]
    unfold get_risk_level
    norm_num

/-- C5: `analyze` returns `none` exactly on empty or whitespace-only input,
and returns a populated `ComponentAnalysis` on every other string; the
embedded functions are total, so no input raises. -/
theorem analyze_none_iff_blank :
    ∀ s : String, (analyze s = none ↔ isBlank s = true) ∧
      (isBlank s = false → ∃ a, analyze s = some a) := by
  intro s
  unfold analyze analyzeWith
  cases hb : isBlank s
  · simp only [Bool.false_eq_true, if_false]
    cases hp : profileLookup (classifyWith COMPONENT_MAP s) with
    | none => simp
    | some prof =>
      obtain ⟨et, sst, d, t⟩ := prof
      simp
  · simp

/-- Witness for C5 at the concrete input `"EC2"`. -/
theorem analyze_none_iff_blank_witness :
    ∃ a, analyze "EC2" = some a :=
  (analyze_none_iff_blank "EC2").2 rfl

/-- C6: every category of the closed enumeration has exactly one entry in
the Category Profile Table, that entry's threat list is non-empty, and every
knowledge-base ThreatRisk has a severity among CRITICAL, HIGH, MEDIUM,
LOW. -/
theorem profiles_complete_and_severities_valid :
    (∀ c : ComponentCategory,
      (CATEGORY_PROFILES.filter (fun p => p.1 == c)).length = 1 ∧
      ∀ q ∈ CATEGORY_PROFILES, q.1 = c → q.2.2.2.2 ≠ []) ∧
    ∀ l ∈ KNOWLEDGE_BASE, ∀ r ∈ l, validSeverity r.severity = true := by
  constructor
  · intro c
    cases c <;> exact ⟨by rfl, by decide⟩
  · decide

theorem pyMaxBy_mem (f : ThreatRisk → Nat) :
    ∀ (xs : List ThreatRisk) (x : ThreatRisk), pyMaxBy f x xs ∈ x :: xs
  | [], x => by simp [pyMaxBy]
  | y :: ys, x => by
    unfold pyMaxBy
    rw [List.foldl_cons]
    have h := pyMaxBy_mem f ys (if f y > f x then y else x)
    unfold pyMaxBy at h
    rcases List.mem_cons.1 h with h1 | h1
    · rw [h1]
      by_cases hxy : f y > f x
      · rw [if_pos hxy]
        simp
      · rw [if_neg hxy]
        simp
    · simp [List.mem_cons, h1]

theorem pyMaxBy_le (f : ThreatRisk → Nat) :
    ∀ (xs : List ThreatRisk) (x : ThreatRisk) (r : ThreatRisk),
      r ∈ x :: xs → f r ≤ f (pyMaxBy f x xs)
  | [], x, r => by
    intro hr
    rcases List.mem_cons.1 hr with h1 | h1
    · rw [h1]; simp [pyMaxBy]
    · simp at h1
  | y :: ys, x, r => by
    intro hr
    unfold pyMaxBy
    rw [List.foldl_cons]
    have hstep_x : f x ≤ f (if f y > f x then y else x) := by
      by_cases h : f y > f x
      · rw [if_pos h]; omega
      · rw [if_neg h]
    have hstep_y : f y ≤ f (if f y > f x then y else x) := by
      by_cases h : f y > f x
      · rw [if_pos h]
      · rw [if_neg h]; omega
    have hh := pyMaxBy_le f ys (if f y > f x then y else x)
    have hhead := hh _ (List.mem_cons_self _ _)
    unfold pyMaxBy at hh hhead
    rcases List.mem_cons.1 hr with h1 | h1
    · rw [h1]
      exact le_trans hstep_x hhead
    · rcases List.mem_cons.1 h1 with h2 | h2
      · rw [h2]
        exact le_trans hstep_y hhead
      · exact hh r (List.mem_cons_of_mem _ h2)

theorem severity_order_le_four (s : String) : severity_order s ≤ 4 := by
  unfold severity_order
  split_ifs <;> omega

theorem severity_order_eq_four_iff (s : String) :
    severity_order s = 4 ↔ s = "CRITICAL" := by
  unfold severity_order
  split_ifs with h1 h2 h3 h4 <;> simp_all [beq_iff_eq]

theorem severity_order_eq_three_iff (s : String) :
    severity_order s = 3 ↔ s = "HIGH" := by
  unfold severity_order
  split_ifs with h1 h2 h3 h4 <;> simp_all [beq_iff_eq]

theorem severity_order_eq_two_iff (s : String) :
    severity_order s = 2 ↔ s = "MEDIUM" := by
  unfold severity_order
  split_ifs with h1 h2 h3 h4 <;> simp_all [beq_iff_eq]

theorem severity_order_le_three_of_ne (s : String) (h : s ≠ "CRITICAL") :
    severity_order s ≤ 3 := by
  unfold severity_order
  split_ifs with h1 h2 h3 h4 <;> simp_all [beq_iff_eq]

theorem severity_order_le_two_of_ne (s : String) (hc : s ≠ "CRITICAL")
    (hh : s ≠ "HIGH") : severity_order s ≤ 2 := by
  unfold severity_order
  split_ifs with h1 h2 h3 h4 <;> simp_all [beq_iff_eq]

theorem validSeverity_iff (s : String) :
    validSeverity s = true ↔
      s = "CRITICAL" ∨ s = "HIGH" ∨ s = "MEDIUM" ∨ s = "LOW" := by
  unfold validSeverity
  simp [beq_iff_eq]
  tauto

/-- C7: for every `ComponentAnalysis` whose risks carry one of the four
defined severities, `risk_count` is the number of risks and `max_severity`
is the highest-ranked severity present (CRITICAL > HIGH > MEDIUM > LOW,
LOW when empty); `analyze "EC2"` has category compute, risk_count
`len(COMPUTE_THREATS) = 3` and max_severity CRITICAL. -/
theorem max_severity_matches_spec :
    ∀ a : ComponentAnalysis,
      (∀ r ∈ a.risks, validSeverity r.severity = true) →
      a.risk_count = a.risks.length ∧
      a.max_severity = maxSeveritySpec a.risks ∧
      (analyze "EC2").map ComponentAnalysis.category = some "compute" ∧
      (analyze "EC2").map ComponentAnalysis.risk_count =
        some COMPUTE_THREATS.length ∧
      COMPUTE_THREATS.length = 3 ∧
      (analyze "EC2").map ComponentAnalysis.max_severity = some "CRITICAL" := by
  intro a h
  refine ⟨rfl, ?_, by decide, by decide, by decide, by decide⟩
  unfold ComponentAnalysis.max_severity maxSeveritySpec
  cases hrisks : a.risks with
  | nil => simp
  | cons x xs =>
    rw [hrisks] at h
    have hmem := pyMaxBy_mem (fun r => severity_order r.severity) xs x
    have hle := pyMaxBy_le (fun r => severity_order r.severity) xs x
    set m := pyMaxBy (fun r => severity_order r.severity) x xs with hm
    by_cases hC : (x :: xs).any (fun r => r.severity == "CRITICAL") = true
    · rw [if_pos hC]
      obtain ⟨r, hrmem, hrC⟩ := List.any_eq_true.1 hC
      rw [beq_iff_eq] at hrC
      have h1 : severity_order r.severity ≤ severity_order m.severity :=
        hle r hrmem
      rw [hrC] at h1
      have h2 : severity_order m.severity ≤ 4 := severity_order_le_four _
      exact (severity_order_eq_four_iff m.severity).1 (by
        have : severity_order "CRITICAL" = 4 := rfl
        omega)
    · have hCf : ∀ r ∈ x :: xs, r.severity ≠ "CRITICAL" := by
        intro r hr
        have := List.any_eq_false.1 (Bool.eq_false_iff.2 hC) r hr
        simpa [beq_iff_eq] using this
      rw [if_neg hC]
      have hmC : severity_order m.severity ≤ 3 :=
        severity_order_le_three_of_ne _ (hCf m hmem)
      by_cases hH : (x :: xs).any (fun r => r.severity == "HIGH") = true
      · rw [if_pos hH]
        obtain ⟨r, hrmem, hrH⟩ := List.any_eq_true.1 hH
        rw [beq_iff_eq] at hrH
        have h1 : severity_order r.severity ≤ severity_order m.severity :=
          hle r hrmem
        rw [hrH] at h1
        exact (severity_order_eq_three_iff m.severity).1 (by
          have : severity_order "HIGH" = 3 := rfl
          omega)
      · have hHf : ∀ r ∈ x :: xs, r.severity ≠ "HIGH" := by
          intro r hr
          have := List.any_eq_false.1 (Bool.eq_false_iff.2 hH) r hr
          simpa [beq_iff_eq] using this
        rw [if_neg hH]
        have hmH : severity_order m.severity ≤ 2 :=
          severity_order_le_two_of_ne _ (hCf m hmem) (hHf m hmem)
        by_cases hM : (x :: xs).any (fun r => r.severity == "MEDIUM") = true
        · rw [if_pos hM]
          obtain ⟨r, hrmem, hrM⟩ := List.any_eq_true.1 hM
          rw [beq_iff_eq] at hrM
          have h1 : severity_order r.severity ≤ severity_order m.severity :=
            hle r hrmem
          rw [hrM] at h1
          exact (severity_order_eq_two_iff m.severity).1 (by
            have : severity_order "MEDIUM" = 2 := rfl
            omega)
        · have hMf : ∀ r ∈ x :: xs, r.severity ≠ "MEDIUM" := by
            intro r hr
            have := List.any_eq_false.1 (Bool.eq_false_iff.2 hM) r hr
            simpa [beq_iff_eq] using this
          rw [if_neg hM]
          rcases (validSeverity_iff m.severity).1 (h m hmem) with hv | hv | hv | hv
          · exact absurd hv (hCf m hmem)
          · exact absurd hv (hHf m hmem)
          · exact absurd hv (hMf m hmem)
          · exact hv

/-- Witness for C7 at a concrete analysis (the generic analysis, whose one
risk has severity MEDIUM). -/
theorem max_severity_matches_spec_witness :
    (build_generic_analysis "X" ComponentCategory.other).max_severity =
      maxSeveritySpec (build_generic_analysis "X" ComponentCategory.other).risks :=
  (max_severity_matches_spec (build_generic_analysis "X" ComponentCategory.other)
    (by decide)).2.1

/-- C8: every category of the closed enumeration has a registered profile,
so the missing-profile branch of `analyze` is unreachable; were it reached,
the synthesized generic analysis carries exactly one default Spoofing risk
at MEDIUM severity. -/
theorem generic_branch_unreachable :
    (∀ c : ComponentCategory, (profileLookup c).isSome = true) ∧
    ∀ (s : String) (c : ComponentCategory),
      (build_generic_analysis s c).risks =
        [{ threat_type := "Spoofing",
           threat_label := "S - Falsificação de Identidade",
           detail := "Componente não categorizado requer revisão manual.",
           mitigation := "Verificar autenticação e autorização manualmente.",
           severity := "MEDIUM" }] := by
  exact ⟨fun c => by cases c <;> rfl, fun s c => rfl⟩

theorem lookupAssoc_dictInsert_self
    (m : List (String × ComponentCategory)) (k : String) (v : ComponentCategory) :
    lookupAssoc (dictInsert m k v) k = some v := by
  unfold dictInsert lookupAssoc
  cases hany : m.any (fun p => p.1 == k)
  · rw [if_neg (by simp [hany])]
    have hnone : m.find? (fun p => p.1 == k) = none :=
      List.find?_eq_none.2 (List.any_eq_false.1 hany)
    rw [List.find?_append, hnone]
    simp
  · rw [if_pos (by simp [hany])]
    rw [List.find?_map]
    have hcomp : ((fun p : String × ComponentCategory => p.1 == k) ∘
        (fun p : String × ComponentCategory => if p.1 == k then (k, v) else p)) =
        (fun p : String × ComponentCategory => p.1 == k) := by
      funext q
      simp only [Function.comp_apply]
      cases hq : (q.1 == k)
      · rw [if_neg (by simp [hq]), hq]
      · rw [if_pos (by simp [hq])]
        simp [hq]
    rw [hcomp]
    have hfind : (m.find? (fun p => p.1 == k)).isSome = true :=
      List.find?_isSome.2 (List.any_eq_true.1 hany)
    obtain ⟨q, hq⟩ := Option.isSome_iff_exists.1 hfind
    have hqk := List.find?_some hq
    rw [hq]
    have hqe : q.1 = k := by simpa using hqk
    simp [hqe]

theorem lookupAssoc_dictInsert_other
    (m : List (String × ComponentCategory)) (k k' : String)
    (v : ComponentCategory) (hne : k ≠ k') :
    lookupAssoc (dictInsert m k' v) k = lookupAssoc m k := by
  unfold dictInsert lookupAssoc
  cases hany : m.any (fun p => p.1 == k')
  · rw [if_neg (by simp [hany])]
    rw [List.find?_append]
    have h1 : List.find? (fun p : String × ComponentCategory => p.1 == k)
        [(k', v)] = none := by
      rw [List.find?_cons_of_neg _ (by simp [Ne.symm hne])]
      rfl
    rw [h1]
    simp
  · rw [if_pos (by simp [hany])]
    rw [List.find?_map]
    have hcomp : ((fun p : String × ComponentCategory => p.1 == k) ∘
        (fun p : String × ComponentCategory => if p.1 == k' then (k', v) else p)) =
        (fun p : String × ComponentCategory => p.1 == k) := by
      funext q
      simp only [Function.comp_apply]
      cases hq : (q.1 == k')
      · rw [if_neg (by simp [hq])]
      · rw [if_pos (by simp [hq])]
        have hqe : q.1 = k' := by simpa using hq
        rw [hqe]
    rw [hcomp]
    cases hfq : m.find? (fun p => p.1 == k)
    · simp
    · rename_i q
      have hqk := List.find?_some hfq
      have hqe : q.1 = k := by simpa using hqk
      have hid : (if q.1 == k' then (k', v) else q) = q := by
        rw [if_neg (by simp [hqe, hne])]
      simp only [Option.map_some']
      rw [hid]

theorem mkClassifierFold_preserves (k : String) :
    ∀ (custom : List (String × String)) (init m : List (String × ComponentCategory)),
      custom.foldlM (fun m p => (ComponentCategory.ofString? p.2).map
        (fun c => dictInsert m p.1 c)) init = some m →
      (∀ p ∈ custom, p.1 ≠ k) →
      lookupAssoc m k = lookupAssoc init k
  | [], init, m => by
    intro hm _
    simp only [List.foldlM] at hm
    cases hm
    rfl
  | (k₀, v₀) :: rest, init, m => by
    intro hm hk
    rw [List.foldlM_cons] at hm
    cases hv : ComponentCategory.ofString? v₀ with
    | none =>
      rw [hv] at hm
      simp at hm
    | some c₀ =>
      rw [hv] at hm
      simp only [Option.map_some', Option.some_bind] at hm
      have ih := mkClassifierFold_preserves k rest (dictInsert init k₀ c₀) m hm
        (fun p hp => hk p (List.mem_cons_of_mem _ hp))
      rw [ih, lookupAssoc_dictInsert_other init k k₀ c₀
        (Ne.symm (hk (k₀, v₀) (List.mem_cons_self _ _)))]

theorem mkClassifierFold_lookup :
    ∀ (custom : List (String × String)) (init m : List (String × ComponentCategory)),
      (custom.map Prod.fst).Nodup →
      custom.foldlM (fun m p => (ComponentCategory.ofString? p.2).map
        (fun c => dictInsert m p.1 c)) init = some m →
      ∀ k v, (k, v) ∈ custom →
        ∃ c, ComponentCategory.ofString? v = some c ∧ lookupAssoc m k = some c
  | [], init, m => by
    intro _ _ k v hmem
    simp at hmem
  | (k₀, v₀) :: rest, init, m => by
    intro hnodup hm k v hmem
    rw [List.foldlM_cons] at hm
    cases hv : ComponentCategory.ofString? v₀ with
    | none =>
      rw [hv] at hm
      simp at hm
    | some c₀ =>
      rw [hv] at hm
      simp only [Option.map_some', Option.some_bind] at hm
      rw [List.map_cons, List.nodup_cons] at hnodup
      rcases List.mem_cons.1 hmem with heq | hmem'
      · have hk : k = k₀ := congrArg Prod.fst heq
        have hv2 : v = v₀ := congrArg Prod.snd heq
        refine ⟨c₀, by rw [hv2, hv], ?_⟩
        have hrest : ∀ p ∈ rest, p.1 ≠ k := by
          intro p hp hpk
          apply hnodup.1
          have hmm : p.1 ∈ rest.map Prod.fst := List.mem_map_of_mem Prod.fst hp
          rw [hpk, hk] at hmm
          exact hmm
        rw [mkClassifierFold_preserves k rest (dictInsert init k₀ c₀) m hm hrest,
          hk, lookupAssoc_dictInsert_self]
      · exact mkClassifierFold_lookup rest (dictInsert init k₀ c₀) m hnodup.2 hm
          k v hmem'

theorem mkClassifierFold_isSome :
    ∀ (custom : List (String × String)) (init : List (String × ComponentCategory)),
      (custom.foldlM (fun m p => (ComponentCategory.ofString? p.2).map
        (fun c => dictInsert m p.1 c)) init).isSome =
      custom.all (fun p => (ComponentCategory.ofString? p.2).isSome)
  | [], init => by simp [List.foldlM]
  | (k₀, v₀) :: rest, init => by
    rw [List.foldlM_cons, List.all_cons]
    cases hv : ComponentCategory.ofString? v₀ with
    | none => simp [hv]
    | some c₀ =>
      simp only [hv, Option.map_some', Option.some_bind, Option.isSome_some,
        Bool.true_and]
      exact mkClassifierFold_isSome rest (dictInsert init k₀ c₀)

/-- C9 counterexample: with the supplemental mapping `{"": "compute"}`
(a valid category value), `classify("")` returns `other`, not the supplied
category, because the blank-input guard fires before the exact lookup. -/
theorem custom_blank_key_counterexample :
    (mkClassifier [("", "compute")]).map (fun m => classifyWith m "") =
      some ComponentCategory.other ∧
    ComponentCategory.other ≠ ComponentCategory.compute := by
  exact ⟨rfl, by decide⟩

/-- C9 (amended): for a supplemental mapping with valid category values and
distinct keys, every NON-BLANK key of the mapping classifies to the supplied
category (blank keys are shadowed by the blank-input guard); in particular
`{"MyService": "compute"}` gives `classify("MyService") = compute`. -/
theorem classifier_custom_mappings
    (custom : List (String × String)) (m : List (String × ComponentCategory))
    (hnodup : (custom.map Prod.fst).Nodup)
    (hm : mkClassifier custom = some m) :
    (∀ k v, (k, v) ∈ custom → isBlank k = false →
      ∃ c, ComponentCategory.ofString? v = some c ∧ classifyWith m k = c) ∧
    (mkClassifier [("MyService", "compute")]).map
      (fun mm => classifyWith mm "MyService") = some ComponentCategory.compute := by
  constructor
  · intro k v hmem hblank
    obtain ⟨c, hc, hl⟩ :=
      mkClassifierFold_lookup custom COMPONENT_MAP m hnodup hm k v hmem
    refine ⟨c, hc, ?_⟩
    unfold classifyWith
    rw [if_neg (by simp [hblank]), hl]
  · rfl

/-- Witness for the amended C9 at the mapping `{"MyService": "compute"}`. -/
theorem classifier_custom_mappings_witness :
    ∃ c, ComponentCategory.ofString? "compute" = some c ∧
      classifyWith (dictInsert COMPONENT_MAP "MyService" ComponentCategory.compute)
        "MyService" = c :=
  (classifier_custom_mappings [("MyService", "compute")]
    (dictInsert COMPONENT_MAP "MyService" ComponentCategory.compute)
    (by simp) rfl).1 "MyService" "compute" (List.mem_singleton.2 rfl) rfl

/-- C10: classifier construction succeeds iff every value of the custom
mapping is a valid category string; an invalid value such as
`"not_a_category"` makes the constructor raise (modelled as `none`). -/
theorem classifier_construction_totality :
    (∀ custom : List (String × String),
      (mkClassifier custom).isSome =
        custom.all (fun p => (ComponentCategory.ofString? p.2).isSome)) ∧
    mkClassifier [("X", "not_a_category")] = none :=
  ⟨fun custom => mkClassifierFold_isSome custom COMPONENT_MAP, rfl⟩

/-- Witness for C6 at the concrete category `compute` and the single
OTHER_THREATS risk. -/
theorem profiles_complete_and_severities_valid_witness :
    (CATEGORY_PROFILES.filter
      (fun p => p.1 == ComponentCategory.compute)).length = 1 ∧
    validSeverity (ThreatRisk.mk "Spoofing" "S - Falsificação de Identidade"
      "Componente não categorizado requer revisão manual de segurança."
      "Verificar autenticação e autorização manualmente." "MEDIUM").severity =
      true := by
  refine ⟨(profiles_complete_and_severities_valid.1 ComponentCategory.compute).1,
    profiles_complete_and_severities_valid.2 OTHER_THREATS (by decide) _ (by decide)⟩

end Stride
